import Mathlib

/-!
Shallow embedding of the non-GUI logic of the memcached GUI repository:
the `MemcachedClient` connection wrapper (`src/core/client.py`) and the
context-registry handlers of `MainWindow`
(`gui/src/ui/main_window.py` and `src/ui/main_window.py`), together with
the `ContextDialog` payload (`get_context_data`) and the file loader.

Conventions of the embedding:
* Python object state is passed explicitly; a method becomes a function
  from the state (and the inputs the real code reads) to the new state
  and the returned / displayed value.
* The external pymemcache capability is a parameter: the outcome of the
  connection probe (`stats()`) and the key-value store backing `get` are
  arguments, since their behaviour is owned by the external library.
* Python strings are `String`, Python byte strings are `List Nat`
  (their byte values); `None`-able values are `Option`.
-/

namespace MemcachedGui

/-- An endpoint `(host, port)` as passed to `pymemcache.client.base.Client`. -/
structure Endpoint where
  host : String
  port : Int
deriving DecidableEq, Repr

/-- State of `MemcachedClient` (`src/core/client.py`): the single field
`self.client`, which is `None` initially and after `disconnect`, and holds
the capability object (recorded here by the endpoint it was built for)
otherwise. -/
structure MemcachedClient where
  client : Option Endpoint
deriving DecidableEq, Repr

/-- The initial state produced by `MemcachedClient.__init__`: `self.client = None`. -/
def MemcachedClient.init : MemcachedClient := { client := none }

/-- The Python value returned by `MemcachedClient.connect`: the bare boolean
`True` on success, or the two-element tuple `(False, str(e))` on failure.
These are two different shapes of Python value. -/
inductive ConnectResult where
  | trueVal : ConnectResult
  | falseTuple (msg : String) : ConnectResult
deriving DecidableEq, Repr

/-- Truthiness of the value returned by `connect` under Python rules:
`True` is truthy, and a non-empty tuple is truthy regardless of its
contents, so `(False, msg)` is also truthy. -/
def ConnectResult.pyTruthy : ConnectResult → Bool
  | .trueVal => true
  | .falseTuple _ => true

/-- Outcome of the connection probe `self.client.stats()` performed right
after constructing the capability; its behaviour (refusal, timeout,
malformed host) is owned by the external library, so it is a parameter. -/
inductive ProbeOutcome where
  | ok
  | raises (msg : String)
deriving DecidableEq, Repr

/-- `MemcachedClient.connect` (`src/core/client.py` lines 7-14):

    self.client = Client((host, port))
    self.client.stats()
    return True
  except Exception as e:
    return False, str(e)

`self.client` is assigned the new capability before the probe runs, so the
assignment survives a failing probe: the except branch returns the tuple
without resetting `self.client`. -/
def MemcachedClient.connect (s : MemcachedClient) (host : String) (port : Int)
    (probe : ProbeOutcome) : MemcachedClient × ConnectResult :=
  let s1 : MemcachedClient := { s with client := some ⟨host, port⟩ }
  match probe with
  | .ok => (s1, .trueVal)
  | .raises e => (s1, .falseTuple e)

/-- `MemcachedClient.disconnect` (`src/core/client.py` lines 16-19):

    if self.client:
        self.client.close()
        self.client = None

The boolean in the result records whether `close()` was invoked on the
capability in this call. -/
def MemcachedClient.disconnect (s : MemcachedClient) : MemcachedClient × Bool :=
  match s.client with
  | some _ => ({ client := none }, true)
  | none => (s, false)

/-- Result of a `get` call at the client layer: the key is present with a
byte-string value, the key is absent, or the call is rejected because the
session is not connected. -/
inductive GetResult where
  | found (value : List Nat)
  | absent
  | notConnected
deriving DecidableEq, Repr

/-- Modelled from the spec: `MemcachedClient.get` is called by
`MainWindow.handle_retrieve` (`gui/src/ui/main_window.py`) but its
definition (the `core/client.py` of the gui tree) is not among the source
files; only this caller is. Per the spec, `get(key)` is valid only from
`Connected`, fails with `NotConnected` otherwise, and delegates to the
retrieval operation of the external capability, distinguishing `found(bytes)` from
`absent`. The key-value store of the capability is the parameter `cap`. -/
def MemcachedClient.get (s : MemcachedClient) (key : String)
    (cap : String → Option (List Nat)) : GetResult :=
  match s.client with
  | none => .notConnected
  | some _ =>
    match cap key with
    | some v => .found v
    | none => .absent

/-- A gradient colour value as it appears in the `colors` metadata: a pair
of RGB triples, e.g. `((240, 248, 255), (230, 230, 250))`. -/
abbrev Colors := (Nat × Nat × Nat) × (Nat × Nat × Nat)

/-- Payload returned by `ContextDialog.get_context_data`
(`gui/src/ui/context_dialog.py` lines 61-66): the three line-edit texts,
verbatim — the port is the raw text of the port input, with no numeric
coercion or validation performed by the dialog. -/
structure ContextData where
  name : String
  host : String
  port : String
deriving DecidableEq, Repr

/-- The display text built for a context list item:
`f"{name} ({host}:{port})"`. -/
def contextItemText (c : ContextData) : String :=
  c.name ++ " (" ++ c.host ++ ":" ++ c.port ++ ")"

/-- One row of the `QListWidget` holding the contexts: its display text
and the `colors` payload stored as item data (set by `load_contexts` via
a `.get` lookup of the `colors` key, hence optional). -/
structure CtxItem where
  text : String
  colors : Option Colors
deriving DecidableEq, Repr

/-- The registry view of the list: every row except the trailing `"+"`
pseudo-item (the add button), matching the skip in `save_contexts`. -/
def contexts (items : List CtxItem) : List CtxItem :=
  items.filter (fun it => it.text ≠ "+")

/-- The `"+"` pseudo-row appended by `load_contexts` as the add button. -/
def plusItem : CtxItem := { text := "+", colors := none }

/-- Python `item_text.split(" (")` on the character list: pieces are
separated by each non-overlapping occurrence of the two-character
separator, scanned left to right. -/
def splitOnSpaceParen : List Char → List (List Char)
  | [] => [[]]
  | ' ' :: '(' :: rest => [] :: splitOnSpaceParen rest
  | c :: rest =>
    match splitOnSpaceParen rest with
    | [] => [[c]]
    | piece :: pieces => (c :: piece) :: pieces

/-- Python `host_port.split(":")` on the character list. -/
def splitOnColon : List Char → List (List Char)
  | [] => [[]]
  | ':' :: rest => [] :: splitOnColon rest
  | c :: rest =>
    match splitOnColon rest with
    | [] => [[c]]
    | piece :: pieces => (c :: piece) :: pieces

/-- Python `str.rstrip(")")` on the character list: removes every trailing
close-paren character. -/
def pyRstripParen (cs : List Char) : List Char :=
  (cs.reverse.dropWhile (fun ch => ch = ')')).reverse

/-- The item-text parse shared by `get_current_context`, `save_contexts`
and the edit path:

    name = item_text.split(" (")[0]
    host_port = item_text.split(" (")[1].rstrip(")")
    host, port = host_port.split(":")

Indexing `[1]` takes the second piece of the split (raising `IndexError`
when there is none), and the two-variable unpacking raises `ValueError`
unless the colon split yields exactly two pieces; both exceptional paths
are `none` here. -/
def parseContextText (t : String) : Option (String × String × String) :=
  match splitOnSpaceParen t.toList with
  | name :: hp :: _ =>
    match splitOnColon (pyRstripParen hp) with
    | [host, port] => some (name.asString, host.asString, port.asString)
    | _ => none
  | _ => none

/-- Does the display text survive a parse / re-format cycle? Holds for
every text actually built by the application
(`f"{name} ({host}:{port})"` with a separator-free name, host and port)
and is the well-formedness assumption of the round-trip theorems. -/
def rebuildsText (t : String) : Bool :=
  match parseContextText t with
  | some (n, h, p) => (n ++ " (" ++ h ++ ":" ++ p ++ ")") == t
  | none => false

/-- One record of the persisted `contexts.json` list:
`{"name": ..., "host": ..., "port": ..., "colors": ...}`. The src-tree
`save_contexts` always writes a `colors` entry; a file produced elsewhere
may lack it (the loader reads it with a defaulting `.get`), hence the
`Option`. -/
structure ContextRecord where
  name : String
  host : String
  port : String
  colors : Option Colors
deriving DecidableEq, Repr

/-- The fixed gradient palette of `MainWindow.save_contexts`
(`src/ui/main_window.py` lines 229-235). -/
def colorsPalette : List Colors :=
  [(((240, 248, 255), (230, 230, 250)) : Colors),
   ((255, 240, 245), (255, 228, 225)),
   ((240, 255, 240), (245, 255, 250)),
   ((255, 250, 240), (255, 245, 238)),
   ((240, 255, 255), (240, 248, 255))]

/-- Body of the serialisation loop of `MainWindow.save_contexts`
(`src/ui/main_window.py` lines 237-256): walk the rows, skip the `"+"`
pseudo-item, re-parse each display text into name/host/port, and attach
`"colors": random.choice(colors)` — a fresh random palette entry, not the
stored colors of the item. `pick` supplies the value of each successive
`random.choice` call (indexed by how many records were emitted so far);
`none` models the uncaught `IndexError`/`ValueError` a malformed display
text raises inside the loop. -/
def saveContextsAux (pick : Nat → Colors) : Nat → List CtxItem → Option (List ContextRecord)
  | _, [] => some []
  | i, it :: rest =>
    if it.text = "+" then saveContextsAux pick i rest
    else
      match parseContextText it.text with
      | none => none
      | some (n, h, p) =>
        match saveContextsAux pick (i + 1) rest with
        | none => none
        | some rs => some ({ name := n, host := h, port := p, colors := some (pick i) } :: rs)

/-- `MainWindow.save_contexts` (`src/ui/main_window.py` lines 226-262),
restricted to the serialisation it performs (the final `json.dump` write
and its caught IO failure do not change the produced record list). -/
def save_contexts (items : List CtxItem) (pick : Nat → Colors) : Option (List ContextRecord) :=
  saveContextsAux pick 0 items

/-- A reading of the persisted file as seen by `load_contexts`:
the file is missing, its JSON is malformed, or it parses to a record list. -/
inductive FileRead where
  | missing
  | malformed (msg : String)
  | parsed (records : List ContextRecord)

/-- The row built by `load_contexts` for one parsed record:
`QListWidgetItem(f"{name} ({host}:{port})")` with
a `setData` call carrying the optional colors lookup. -/
def recordToItem (r : ContextRecord) : CtxItem :=
  { text := r.name ++ " (" ++ r.host ++ ":" ++ r.port ++ ")", colors := r.colors }

/-- `MainWindow.load_contexts` (`src/ui/main_window.py` lines 264-278 and
identically `gui/src/ui/main_window.py` lines 274-288), starting from the
empty list the window is created with: a missing file is skipped without
an error; malformed JSON is caught and reported in the status bar; a
parsed file contributes one row per record; and the `"+"` pseudo-row is
appended in every case. The second component is the error message shown,
if any. -/
def load_contexts (file : FileRead) : List CtxItem × Option String :=
  match file with
  | .missing => ([plusItem], none)
  | .malformed m => ([plusItem], some ("加载配置失败: " ++ m))
  | .parsed rs => (rs.map recordToItem ++ [plusItem], none)

/-- `Config.load_config` (`gui/src/utils/config.py` lines 9-16): a missing
file and malformed JSON both yield the empty dict `{}` (the dict is left
abstract here; only emptiness matters). -/
def load_config (file : Option (Option (List (String × String)))) : List (String × String) :=
  match file with
  | none => []
  | some none => []
  | some (some cfg) => cfg

/-- `MainWindow.handle_add_context` (`gui/src/ui/main_window.py` lines
290-312), after the dialog is accepted, acting on the row list:

    if not context_data["name"] or not context_data["host"]:
        QMessageBox.warning(...); return
    self.context_list.takeItem(self.context_list.count() - 1)
    self.context_list.addItem(f"...")
    self.context_list.addItem("+")

Only emptiness of name and host is checked — the port text is never
validated. `takeItem(count - 1)` removes the last row whatever it is; the
new row and a fresh `"+"` row are appended. The boolean is `true` when the
add was rejected with the empty-name/host warning. -/
def handle_add_context (items : List CtxItem) (c : ContextData) : List CtxItem × Bool :=
  if c.name = "" ∨ c.host = "" then (items, true)
  else (items.dropLast ++ [{ text := contextItemText c, colors := none }, plusItem], false)

/-- Python `str.strip()` (no argument): removes leading and trailing
whitespace. -/
def pyStrip (s : String) : String :=
  (((s.toList.dropWhile Char.isWhitespace).reverse.dropWhile Char.isWhitespace).reverse).asString

/-- Decimal digit value of a character, if it is one. -/
def digitVal (c : Char) : Option Nat :=
  if '0' ≤ c ∧ c ≤ '9' then some (c.toNat - '0'.toNat) else none

/-- Accumulating decimal parse of a digit string; `none` on the first
non-digit character. -/
def digitsToNatAux : List Char → Nat → Option Nat
  | [], acc => some acc
  | c :: cs, acc =>
    match digitVal c with
    | some d => digitsToNatAux cs (acc * 10 + d)
    | none => none

/-- Python `int(s)` as used on the port text: an optional minus sign
followed by at least one decimal digit; everything else raises
`ValueError`, modelled as `none`. (This agrees with CPython on every
input arising here — no surrounding whitespace, underscores or plus
signs.) -/
def pyInt (s : String) : Option Int :=
  match s.toList with
  | [] => none
  | '-' :: cs =>
    if cs = [] then none else (digitsToNatAux cs 0).map (fun n => -(n : Int))
  | cs => (digitsToNatAux cs 0).map (fun n => (n : Int))

/-- Observable outcome of `MainWindow.handle_retrieve`: the empty-key
warning, a successful display of the value in the value pane with a
success status, or the except branch showing `检索失败: msg` in the status
bar. -/
inductive RetrieveOutcome where
  | emptyKeyWarning
  | success (value : List Nat)
  | failure (msg : String)
deriving DecidableEq, Repr

/-- `MainWindow.handle_retrieve` (`gui/src/ui/main_window.py` lines
224-242):

    key = self.key_input.text().strip()
    if not key: warning; return
    value = self.memcached_client.get(key)
    if not value:
        self.value_text.append("键不存在")
        raise Exception("键不存在")
    self.value_text.setText(str(value))
  except Exception as e:
    self.status_bar.showMessage(f"检索失败: ...")

A `None` result (key absent) is falsy, so the handler itself raises
`键不存在`, lands in its own except branch, and reports the retrieval as
failed; an empty byte string is falsy too and is treated identically. A
`NotConnected` failure of the (spec-modelled) `get` surfaces as a caught
exception and is likewise reported through the except branch. -/
def handle_retrieve (client : MemcachedClient) (rawKey : String)
    (cap : String → Option (List Nat)) : RetrieveOutcome :=
  let key := pyStrip rawKey
  if key = "" then .emptyKeyWarning
  else
    match client.get key cap with
    | .notConnected => .failure "NotConnected"
    | .absent => .failure "键不存在"
    | .found v => if v.isEmpty then .failure "键不存在" else .success v

/-- Observable outcome of `MainWindow.handle_connect`: the toggle into
`disconnect_memcached`, the select-a-context warning, a `ValueError` from
`int(context["port"])`, the except branch (`连接失败` dialog and status),
or the success branch (button text changed, flag set, status shows the
endpoint). -/
inductive ConnectFlow where
  | toggledDisconnect
  | noContextWarning
  | intValueError
  | connectError (msg : String)
  | connectedOk (host : String) (port : String)
deriving DecidableEq, Repr

/-- `MainWindow.handle_connect` (`gui/src/ui/main_window.py` lines
185-212):

    if self.is_connected: self.disconnect_memcached(); return
    context = self.get_current_context()
    if not context: warning; return
    result = self.memcached_client.connect(context["host"], int(context["port"]))
    if not result:
        raise Exception("连接失败")
    self.is_connected = True
  except Exception as e: critical dialog; status 连接失败

The returned triple is the client state, the `is_connected` flag and the
observable flow. The success test is bare truthiness of `result` — see
`ConnectResult.pyTruthy`. -/
def handle_connect (client : MemcachedClient) (is_connected : Bool)
    (ctx : Option ContextData) (probe : ProbeOutcome) :
    MemcachedClient × Bool × ConnectFlow :=
  if is_connected then ((client.disconnect).1, false, .toggledDisconnect)
  else
    match ctx with
    | none => (client, false, .noContextWarning)
    | some c =>
      match pyInt c.port with
      | none => (client, false, .intValueError)
      | some p =>
        let res := client.connect c.host p probe
        if (res.2).pyTruthy then (res.1, true, .connectedOk c.host c.port)
        else (res.1, false, .connectError "连接失败")

/-! Theorems. -/

/-- C1, counterexample: a connect from the freshly initialised client that
fails during the probe (the capability raises `connection refused`) does
return the tuple `(False, "connection refused")`, but the client field —
assigned the new capability object before the probe ran — is retained: it
is not `None` afterwards, so the session is not left in the
client-cleared (`Disconnected`) configuration the claim asserts. -/
theorem connect_failure_retains_client_cex :
    MemcachedClient.init.connect "localhost" 11211 (.raises "connection refused")
      = ({ client := some ⟨"localhost", 11211⟩ }, .falseTuple "connection refused")
    ∧ (MemcachedClient.init.connect "localhost" 11211 (.raises "connection refused")).1.client
      ≠ none := by
  constructor
  · rfl
  · intro h
    simp [MemcachedClient.connect, MemcachedClient.init] at h

/-- C1, amended: when the probe raises with message `m`, `connect` returns
`(False, m)` with the underlying message unmodified, but the stored client
capability is retained — `self.client` was assigned before the probe and
the except branch does not clear it, so the state field holds the new
endpoint rather than `None`. -/
theorem connect_failure_message_unmodified_client_retained
    (s : MemcachedClient) (h : String) (p : Int) (m : String) :
    s.connect h p (.raises m) = ({ client := some ⟨h, p⟩ }, .falseTuple m) := by
  rfl

/-- C2, counterexample: with the client already holding a capability for
`("h1", 1)`, a second `connect` to `("h2", 2)` with a succeeding probe
does not fail with any `AlreadyConnected` error — it returns the success
value `True` — and the recorded endpoint is replaced by the new one, no
longer the original. -/
theorem connect_twice_not_rejected_cex :
    ({ client := some ⟨"h1", 1⟩ } : MemcachedClient).connect "h2" 2 .ok
      = ({ client := some ⟨"h2", 2⟩ }, .trueVal)
    ∧ (some (⟨"h2", 2⟩ : Endpoint) ≠ some (⟨"h1", 1⟩ : Endpoint)) := by
  constructor
  · rfl
  · decide

/-- C2, amended: `connect` has no connected-state guard: from any state —
connected or not — it unconditionally replaces the stored capability with
a new one for the requested endpoint (dropping the previous capability
without closing it), and with a succeeding probe it returns `True`. -/
theorem connect_always_replaces_endpoint (s : MemcachedClient) (h : String) (p : Int)
    (probe : ProbeOutcome) :
    (s.connect h p probe).1.client = some ⟨h, p⟩
    ∧ (s.connect h p .ok).2 = .trueVal := by
  cases probe <;> exact ⟨rfl, rfl⟩

/-- C3: with the session in the `Disconnected` state (`self.client` is
`None`, as before any successful connect), `get` fails with
`NotConnected` whatever the key and whatever the external capability
holds — the fixed result over all `cap` shows the capability is never
consulted. `MemcachedClient.get` is modelled from the spec (see its doc
comment), since only its caller is among the source files. -/
theorem get_disconnected_fails_not_connected (s : MemcachedClient)
    (key : String) (cap : String → Option (List Nat)) (hs : s.client = none) :
    s.get key cap = .notConnected := by
  obtain ⟨cl⟩ := s
  cases hs
  rfl

/-- C3, witness: on the freshly initialised client, retrieving a key that
the external capability would actually answer still yields
`NotConnected`. -/
theorem get_disconnected_fails_not_connected_witness :
    MemcachedClient.init.get "foo" (fun _ => some [1, 2]) = .notConnected :=
  get_disconnected_fails_not_connected MemcachedClient.init "foo" (fun _ => some [1, 2]) rfl

/-- C9: `disconnect` is idempotent: from any client state, the state after
one `disconnect` has a cleared client field, and a second `disconnect` is
a pure no-op — it leaves the state unchanged, calls `close()` on nothing,
and raises no error — so the session is `Disconnected` after both calls. -/
theorem disconnect_idempotent (s : MemcachedClient) :
    (s.disconnect).1.client = none
    ∧ (s.disconnect).1.disconnect = ((s.disconnect).1, false)
    ∧ ((s.disconnect).1.disconnect).1.client = none := by
  obtain ⟨cl⟩ := s
  cases cl <;> exact ⟨rfl, rfl, rfl⟩

/-- C8: loading when the persisted file does not exist is not an error:
no status message is produced, the row list holds only the `"+"`
pseudo-row, and the registry view of it is empty. `Config.load_config`
behaves the same way for its file, returning the empty dict. -/
theorem load_missing_file_empty_registry :
    load_contexts .missing = ([plusItem], none)
    ∧ contexts [plusItem] = []
    ∧ load_config none = [] := by
  exact ⟨rfl, rfl, rfl⟩

/-- C10: the tuple `(False, m)` returned by a failing `connect` is truthy
as a Python value, so `handle_connect` — which tests the result only with
`if not result` — takes the success path on a failing connect: the
`is_connected` flag is set to `True` and the flow reports a successful
connection to the requested endpoint. -/
theorem failed_connect_classified_as_success (s : MemcachedClient) (c : ContextData)
    (p : Int) (m : String) (hp : pyInt c.port = some p) :
    (ConnectResult.falseTuple m).pyTruthy = true
    ∧ (handle_connect s false (some c) (.raises m)).2.1 = true
    ∧ (handle_connect s false (some c) (.raises m)).2.2 = .connectedOk c.host c.port := by
  refine ⟨rfl, ?_, ?_⟩ <;>
    simp [handle_connect, hp, MemcachedClient.connect, ConnectResult.pyTruthy]

/-- C10, witness: a concrete run — port text `11211`, probe raising
`connection refused` — ends with the connected flag `True` and a
success flow. -/
theorem failed_connect_classified_as_success_witness :
    (handle_connect MemcachedClient.init false (some ⟨"local", "127.0.0.1", "11211"⟩)
      (.raises "connection refused")).2.1 = true :=
  (failed_connect_classified_as_success MemcachedClient.init
    ⟨"local", "127.0.0.1", "11211"⟩ 11211 "connection refused" (by decide)).2.1

/-- Helper: a context display text is never the `"+"` pseudo-row text,
by length. -/
lemma contextItemText_ne_plus (c : ContextData) : contextItemText c ≠ "+" := by
  intro h
  have hlen := congrArg String.length h
  rw [contextItemText, String.length_append, String.length_append, String.length_append,
    String.length_append] at hlen
  have h1 : (" (" : String).length = 2 := rfl
  have h2 : (":" : String).length = 1 := rfl
  have h3 : (")" : String).length = 1 := rfl
  have h4 : ("+" : String).length = 1 := rfl
  omega

/-- Helper: shape of a successful `handle_add_context` on a well-formed
row list (registry rows followed by the trailing `"+"` row): the new row
goes in front of a fresh `"+"`, and the registry view gains exactly the
new row at the end. -/
lemma handle_add_context_spec (cs : List CtxItem) (c : ContextData)
    (hn : c.name ≠ "") (hh : c.host ≠ "") :
    handle_add_context (cs ++ [plusItem]) c
      = (cs ++ [{ text := contextItemText c, colors := none }, plusItem], false)
    ∧ contexts (cs ++ [{ text := contextItemText c, colors := none }, plusItem])
      = contexts (cs ++ [plusItem]) ++ [{ text := contextItemText c, colors := none }] := by
  have hne := contextItemText_ne_plus c
  have hcond : ¬(c.name = "" ∨ c.host = "") := by
    rintro (h | h)
    · exact hn h
    · exact hh h
  constructor
  · simp [handle_add_context, hcond]
  · simp [contexts, List.filter_append, plusItem, hne]

/-- C7: adding a record with non-empty name and host and an in-range port
succeeds (no rejection) and the new record becomes the last element of
the registry view, with all previously stored rows unchanged and in their
original order. (The port hypotheses mirror the claim; the code accepts
the record without inspecting the port.) -/
theorem add_valid_record_appends_last (cs : List CtxItem) (c : ContextData) (p : Nat)
    (hn : c.name ≠ "") (hh : c.host ≠ "") (hp : pyInt c.port = some (p : Int))
    (hp1 : 1 ≤ p) (hp2 : p ≤ 65535) :
    (handle_add_context (cs ++ [plusItem]) c).2 = false
    ∧ contexts (handle_add_context (cs ++ [plusItem]) c).1
      = contexts (cs ++ [plusItem]) ++ [{ text := contextItemText c, colors := none }] := by
  obtain ⟨h1, h2⟩ := handle_add_context_spec cs c hn hh
  rw [h1]
  exact ⟨rfl, h2⟩

/-- C7, witness: adding `("local", "127.0.0.1", "11211")` to the empty
registry puts it last (and only) in the registry view. -/
theorem add_valid_record_appends_last_witness :
    (handle_add_context ([] ++ [plusItem]) ⟨"local", "127.0.0.1", "11211"⟩).2 = false
    ∧ contexts (handle_add_context ([] ++ [plusItem]) ⟨"local", "127.0.0.1", "11211"⟩).1
      = contexts ([] ++ [plusItem])
        ++ [{ text := contextItemText ⟨"local", "127.0.0.1", "11211"⟩, colors := none }] :=
  add_valid_record_appends_last [] ⟨"local", "127.0.0.1", "11211"⟩ 11211
    (by decide) (by decide) (by decide) (by decide) (by decide)

/-- C5, counterexample: adding a record whose port text is `"abc"` (with
non-empty name and host) is not rejected — there is no `InvalidPort`
error anywhere in the code — the record is stored verbatim, and the
registry view grows from zero to one element. -/
theorem add_invalid_port_accepted_cex :
    handle_add_context [plusItem] ⟨"n", "h", "abc"⟩
      = ([{ text := "n (h:abc)", colors := none }, plusItem], false)
    ∧ (contexts (handle_add_context [plusItem] ⟨"n", "h", "abc"⟩).1).length = 1
    ∧ (contexts [plusItem]).length = 0 := by
  exact ⟨rfl, rfl, rfl⟩

/-- C5, amended: `handle_add_context` performs no port validation at all.
For each of the invalid port texts the claim lists — `0`, `65536`, `abc`,
`-1` — an add with non-empty name and host succeeds, the record is stored
with the port text verbatim, and the registry view length grows by one. -/
theorem add_accepts_invalid_ports (cs : List CtxItem) (nm hs pt : String)
    (hn : nm ≠ "") (hh : hs ≠ "")
    (hpt : pt ∈ (["0", "65536", "abc", "-1"] : List String)) :
    (handle_add_context (cs ++ [plusItem]) (⟨nm, hs, pt⟩ : ContextData)).2 = false
    ∧ (contexts (handle_add_context (cs ++ [plusItem]) (⟨nm, hs, pt⟩ : ContextData)).1).length
      = (contexts (cs ++ [plusItem])).length + 1 := by
  obtain ⟨h1, h2⟩ := handle_add_context_spec cs ⟨nm, hs, pt⟩ hn hh
  rw [h1]
  refine ⟨rfl, ?_⟩
  rw [h2, List.length_append]
  rfl

/-- C5, amended witness: adding `("n", "h", "abc")` to the empty registry
succeeds and the registry view length goes from 0 to 1. -/
theorem add_accepts_invalid_ports_witness :
    (handle_add_context ([] ++ [plusItem]) (⟨"n", "h", "abc"⟩ : ContextData)).2 = false
    ∧ (contexts (handle_add_context ([] ++ [plusItem]) (⟨"n", "h", "abc"⟩ : ContextData)).1).length
      = (contexts ([] ++ [plusItem])).length + 1 :=
  add_accepts_invalid_ports [] "n" "h" "abc" (by decide) (by decide) (by decide)

/-- C4, counterexample: with the session connected, retrieving a key the
external capability does not hold ends in the except branch of
`handle_retrieve`: the handler itself raises `键不存在` and the status bar
reports the retrieval as failed (`检索失败: 键不存在`) — the absent key is
surfaced as an error, not as a non-error absent result. -/
theorem retrieve_absent_reported_as_error_cex :
    handle_retrieve { client := some ⟨"h", 1⟩ } "k" (fun _ => none)
      = .failure "键不存在" := by
  rfl

/-- C4, amended: while connected, `handle_retrieve` distinguishes the two
outcomes but does not keep the absent case error-free: a present key with
a non-empty value is displayed as a success; an absent key (the falsy
`None` result of `get`) makes the handler raise and report the error
`键不存在`; and a present key whose value is the empty byte string is
falsy too and is reported the same way. -/
theorem handle_retrieve_connected_outcomes (s : MemcachedClient) (ep : Endpoint)
    (rawKey : String) (cap : String → Option (List Nat)) (v : List Nat)
    (hs : s.client = some ep) (hk : pyStrip rawKey ≠ "") :
    (cap (pyStrip rawKey) = none → handle_retrieve s rawKey cap = .failure "键不存在")
    ∧ (cap (pyStrip rawKey) = some v → v ≠ [] → handle_retrieve s rawKey cap = .success v)
    ∧ (cap (pyStrip rawKey) = some [] → handle_retrieve s rawKey cap = .failure "键不存在") := by
  obtain ⟨cl⟩ := s
  cases hs
  refine ⟨?_, ?_, ?_⟩
  · intro hcap
    simp [handle_retrieve, MemcachedClient.get, hk, hcap]
  · intro hcap hv
    simp [handle_retrieve, MemcachedClient.get, hk, hcap, hv]
  · intro hcap
    simp [handle_retrieve, MemcachedClient.get, hk, hcap]

/-- C4, witness: a concrete connected retrieval of a present key with
value byte `65` succeeds and displays that value. -/
theorem handle_retrieve_connected_outcomes_witness :
    handle_retrieve { client := some ⟨"h", 1⟩ } "k" (fun _ => some [65])
      = .success [65] :=
  (handle_retrieve_connected_outcomes { client := some ⟨"h", 1⟩ } ⟨"h", 1⟩ "k"
    (fun _ => some [65]) [65] rfl (by decide)).2.1 rfl (by decide)

/-- Helper: the serialisation loop on a well-formed row list (rows whose
texts survive a parse / re-format cycle, followed by the `"+"` row)
succeeds, reproduces every display text, and stamps every record with a
value of the `pick` oracle — a fresh `random.choice` result — as its
`colors`. -/
lemma saveContextsAux_spec (pick : Nat → Colors) (ctxs : List CtxItem) :
    ∀ (i : Nat), (∀ it ∈ ctxs, rebuildsText it.text = true) →
    ∃ R, saveContextsAux pick i (ctxs ++ [plusItem]) = some R
      ∧ R.map (fun r => (recordToItem r).text) = ctxs.map CtxItem.text
      ∧ ∀ r ∈ R, ∃ j, r.colors = some (pick j) := by
  induction ctxs with
  | nil =>
    intro i _
    exact ⟨[], rfl, rfl, by simp⟩
  | cons it rest ih =>
    intro i hwf
    have hit : rebuildsText it.text = true := hwf it (by simp)
    have hrest : ∀ x ∈ rest, rebuildsText x.text = true := fun x hx => hwf x (by simp [hx])
    have hne : ¬(it.text = "+") := by
      intro h
      rw [h] at hit
      exact absurd hit (by decide)
    rw [rebuildsText] at hit
    cases hp : parseContextText it.text with
    | none =>
      rw [hp] at hit
      simp at hit
    | some nhp =>
      obtain ⟨n, h, p⟩ := nhp
      rw [hp] at hit
      have htext : n ++ " (" ++ h ++ ":" ++ p ++ ")" = it.text := by
        simpa using hit
      obtain ⟨R, hR1, hR2, hR3⟩ := ih (i + 1) hrest
      refine ⟨{ name := n, host := h, port := p, colors := some (pick i) } :: R, ?_, ?_, ?_⟩
      · simp only [List.cons_append]
        simp [saveContextsAux, hne, hp, hR1]
      · show (recordToItem { name := n, host := h, port := p, colors := some (pick i) }).text
            :: R.map (fun r => (recordToItem r).text)
            = it.text :: rest.map CtxItem.text
        rw [hR2, ← htext]
        rfl
      · intro r hr
        rcases List.mem_cons.mp hr with hr | hr
        · exact ⟨i, by rw [hr]⟩
        · exact hR3 r hr

/-- C6, counterexample: a valid registry state — one record
`("local", "h", 1)` with non-empty name and host, port in range, and a
`colors` value that is the second palette gradient — does not survive a
save / load cycle: `save_contexts` discards the stored colors and stamps
the record with a fresh `random.choice` of the palette (here the first
gradient, one of its possible outcomes), so the reloaded row list differs
from the original in its `colors` metadata. -/
theorem save_load_colors_not_preserved_cex :
    (save_contexts [⟨"local (h:1)", some ((255, 240, 245), (255, 228, 225))⟩, plusItem]
        (fun _ => ((240, 248, 255), (230, 230, 250)))).map
        (fun R => (load_contexts (.parsed R)).1)
      = some [⟨"local (h:1)", some ((240, 248, 255), (230, 230, 250))⟩, plusItem]
    ∧ ([⟨"local (h:1)", some ((240, 248, 255), (230, 230, 250))⟩, plusItem] : List CtxItem)
      ≠ [⟨"local (h:1)", some ((255, 240, 245), (255, 228, 225))⟩, plusItem] := by
  constructor
  · rfl
  · decide

/-- C6, amended: for every well-formed registry state, `save_contexts`
followed by `load_contexts` reproduces the ordered sequence of records —
every display text, hence name, host and port, in the same order — but
does not preserve the `colors` metadata: every saved record carries a
fresh `random.choice` palette value (the `pick` oracle) in place of
whatever colors the row had. -/
theorem save_load_reproduces_texts_not_colors (ctxs : List CtxItem) (pick : Nat → Colors)
    (hwf : ∀ it ∈ ctxs, rebuildsText it.text = true) :
    ∃ R, save_contexts (ctxs ++ [plusItem]) pick = some R
      ∧ ((load_contexts (.parsed R)).1).map CtxItem.text
        = (ctxs ++ [plusItem]).map CtxItem.text
      ∧ ∀ r ∈ R, ∃ j, r.colors = some (pick j) := by
  obtain ⟨R, h1, h2, h3⟩ := saveContextsAux_spec pick ctxs 0 hwf
  refine ⟨R, h1, ?_, h3⟩
  show List.map CtxItem.text (R.map recordToItem ++ [plusItem])
      = List.map CtxItem.text (ctxs ++ [plusItem])
  rw [List.map_append, List.map_append, List.map_map]
  have hmm : List.map (CtxItem.text ∘ recordToItem) R = List.map CtxItem.text ctxs := h2
  rw [hmm]

/-- C6, amended witness: a concrete one-record registry round-trips its
display text, with the record stamped by the oracle colors. -/
theorem save_load_reproduces_texts_not_colors_witness :
    ∃ R, save_contexts ([⟨"local (127.0.0.1:11211)", none⟩] ++ [plusItem])
        (fun _ => ((240, 248, 255), (230, 230, 250))) = some R
      ∧ ((load_contexts (.parsed R)).1).map CtxItem.text
        = (([⟨"local (127.0.0.1:11211)", none⟩] : List CtxItem) ++ [plusItem]).map CtxItem.text
      ∧ ∀ r ∈ R, ∃ j : Nat, r.colors
        = some (((240, 248, 255), (230, 230, 250)) : Colors) :=
  save_load_reproduces_texts_not_colors
    ([⟨"local (127.0.0.1:11211)", none⟩] : List CtxItem)
    (fun _ => ((240, 248, 255), (230, 230, 250))) (by decide)

end MemcachedGui
